import Mathlib

/-!
Shallow embedding of the Stripe subscription sync service
(`src/services/StripeSubscriptionSyncService.ts`) and the parts of its
environment the service calls into (mapping stores, subscription
repository, Stripe gateway).  Stateful operations are embedded as
functions threading an explicit `SyncState`; `try/catch` blocks of the
source become `Except` values caught by the wrapper that mirrors the
`catch` clause.  Dates are epoch milliseconds (`new Date(secs * 1000)`).
-/

/-- Internal subscription classification (`SubscriptionType` in
`types/billing.subscription.types.ts`). -/
inductive SubscriptionType where
  | limitDate
  | payAmount
  | usageCount
  deriving Repr, DecidableEq

/-- Value object `SubscriptionDetail`: optional classification fields plus
required `startDate` and optional `endDate` (instants in epoch ms). -/
structure SubscriptionDetail where
  limitDate : Option Nat := none
  payAmount : Option Nat := none
  usageCount : Option Nat := none
  startDate : Nat
  endDate : Option Nat := none
  deriving Repr, DecidableEq

/-- Internal `Subscription` record built by the translator. -/
structure Subscription where
  stripeId : String
  isActive : Bool
  participant : String
  subscriptionType : SubscriptionType
  resource : String
  resources : List String
  details : SubscriptionDetail
  deriving Repr, DecidableEq

/-- Raw customer reference carried by a raw Stripe subscription:
either a plain id string (`string`) or an expanded object
(`Stripe.Customer` / `Stripe.DeletedCustomer`) whose `deleted` and `id`
fields may each be present or absent. -/
inductive CustomerRef where
  | str (id : String)
  | obj (deleted : Option Bool) (id : Option String)
  deriving Repr, DecidableEq

/-- Raw provider subscription object (the fields the service reads). -/
structure StripeSubscription where
  id : String
  status : String
  customer : CustomerRef
  current_period_start : Nat
  current_period_end : Nat
  deriving Repr, DecidableEq

/-- Provider customer object returned by `stripe.customers.create`. -/
structure StripeCustomer where
  id : String
  email : String
  deriving Repr, DecidableEq

/-- One record of the Participant↔ExternalCustomer mapping table
(`CustomerParticipantMap`). -/
structure CustMapping where
  participant : String
  stripeCustomerId : String
  deriving Repr, DecidableEq

/-- One record of the Participant↔ExternalConnectedAccount mapping table
(`ConnectedAccountParticipantMap`). -/
structure AccMapping where
  participant : String
  stripeAccount : String
  deriving Repr, DecidableEq

/-- A stored subscription record: internal Mongo id plus the document. -/
structure SubRecord where
  internalId : Nat
  sub : Subscription
  deriving Repr, DecidableEq

/-- Repository mutation trace entries (calls that write the store). -/
inductive RepoOp where
  | add (subs : List Subscription)
  | remove (internalId : Nat)
  deriving Repr, DecidableEq

/-- Which mapping table an error refers to. -/
inductive MappingKind where
  | customer
  | connectedAccount
  deriving Repr, DecidableEq

/-- Errors thrown by the service (each constructor corresponds to one
`throw new Error(...)` site or to a repository failure). -/
inductive SyncError where
  | uninitialized
  | alreadyLinked (kind : MappingKind) (externalId : String)
  | mappingNotFound (stripeCustomerId : String)
  | customerDeleted
  | unresolvableCustomer
  | subscriptionRecordNotFound (stripeId : String)
  | invalidSubscriptionId
  | subscriptionNotFound
  | removeNotFound (internalId : Nat)
  deriving Repr, DecidableEq

/-- The message carried by each error (mirrors the `Error` messages of
the source, without punctuation Lean cannot hold in strings). -/
def errMessage : SyncError → String
  | .uninitialized => "Stripe instance is not initialized."
  | .alreadyLinked .customer e =>
      "A mapping for stripeCustomerId " ++ e ++ " already exists."
  | .alreadyLinked .connectedAccount e =>
      "A mapping for stripeAccount " ++ e ++ " already exists."
  | .mappingNotFound c => "No participant found for stripeCustomerId: " ++ c
  | .customerDeleted => "Customer has been deleted"
  | .unresolvableCustomer => "Unable to retrieve customer ID"
  | .subscriptionRecordNotFound s =>
      "Subscription with stripeId " ++ s ++ " not found in the database."
  | .invalidSubscriptionId =>
      "Cannot unregister subscription: Subscription ID is missing or invalid."
  | .subscriptionNotFound =>
      "Cannot register subscription: Subscription not found or invalid."
  | .removeNotFound _ => "Subscription not found."

/-- Log entries: `Logger.log` versus `Logger.error`. -/
inductive LogEntry where
  | log (message : String)
  | error (message : String)
  deriving Repr, DecidableEq

/-- The whole observable state the service acts on: whether the Stripe
client was initialized, the provider-side data (retrievable raw
subscriptions, the id the provider would assign to a created customer —
`none` models a provider-call failure), the two mapping tables, the
subscription repository with its id counter, and the trace of repository
mutation calls. -/
structure SyncState where
  stripeInitialized : Bool
  gateway : List (String × StripeSubscription)
  createdCustomerId : Option String
  customerMap : List CustMapping
  connectedMap : List AccMapping
  repo : List SubRecord
  nextId : Nat
  ops : List RepoOp
  deriving Repr, DecidableEq

/-- Association-list lookup modelling `stripe.subscriptions.retrieve`
(`none` = the provider fails to retrieve the id). -/
def retrieveSubscription : List (String × StripeSubscription) → String → Option StripeSubscription
  | [], _ => none
  | (k, v) :: rest, subscriptionId =>
      if k == subscriptionId then some v else retrieveSubscription rest subscriptionId

/-- `connect(email)`: creates a provider customer; every failure
(uninitialized client or provider error) is caught, logged and turned
into `null`. -/
def connect (st : SyncState) (email : String) : Option StripeCustomer :=
  if st.stripeInitialized then
    match st.createdCustomerId with
    | some cid => some { id := cid, email := email }
    | none => none
  else none

/-- `getStripeSubscription(subscriptionId)`: retrieves the raw
subscription; every failure is caught, logged and turned into `null`. -/
def getStripeSubscription (st : SyncState) (subscriptionId : String) :
    Option StripeSubscription :=
  if st.stripeInitialized then retrieveSubscription st.gateway subscriptionId
  else none

/-- `linkParticipantToCustomer(participant, stripeCustomerId)`:
`findOne` on the customer mapping table, throw `AlreadyLinked` if a
mapping for that external id exists (the throw happens before any
write), otherwise `save` a new mapping record.  The thrown error is
logged and rethrown (propagates). -/
def linkParticipantToCustomer (st : SyncState) (participant stripeCustomerId : String) :
    SyncState × Except SyncError Unit :=
  match st.customerMap.find? (fun m => m.stripeCustomerId == stripeCustomerId) with
  | some _ => (st, Except.error (SyncError.alreadyLinked .customer stripeCustomerId))
  | none =>
      ({ st with customerMap := st.customerMap ++ [⟨participant, stripeCustomerId⟩] },
       Except.ok ())

/-- `linkParticipantToConnectedAccount(participant, stripeAccount)`:
same shape over the connected-account table; returns the new mapping
object on success. -/
def linkParticipantToConnectedAccount (st : SyncState) (participant stripeAccount : String) :
    SyncState × Except SyncError AccMapping :=
  match st.connectedMap.find? (fun m => m.stripeAccount == stripeAccount) with
  | some _ => (st, Except.error (SyncError.alreadyLinked .connectedAccount stripeAccount))
  | none =>
      ({ st with connectedMap := st.connectedMap ++ [⟨participant, stripeAccount⟩] },
       Except.ok ⟨participant, stripeAccount⟩)

/-- `getRelatedParticipant(stripeCustomerId)`: read-only `findOne` on the
customer mapping table; missing mapping is a thrown (propagated)
`NotFound` error. -/
def getRelatedParticipant (st : SyncState) (stripeCustomerId : String) :
    Except SyncError String :=
  match st.customerMap.find? (fun m => m.stripeCustomerId == stripeCustomerId) with
  | none => Except.error (SyncError.mappingNotFound stripeCustomerId)
  | some mapping => Except.ok mapping.participant

/-- `getParticipant(customer)`: extracts the customer id from the raw
reference.  A plain string is taken as the id; an expanded object with
`deleted === true` throws `CustomerDeleted`; otherwise a present `id`
field is taken.  The extracted id is then resolved only when it is
truthy (non-empty); a null or empty id throws `UnresolvableCustomer`. -/
def getParticipant (st : SyncState) (customer : CustomerRef) : Except SyncError String :=
  match customer with
  | .str s =>
      if s ≠ "" then getRelatedParticipant st s
      else Except.error SyncError.unresolvableCustomer
  | .obj deleted id =>
      if deleted = some true then Except.error SyncError.customerDeleted
      else
        match id with
        | some i =>
            if i ≠ "" then getRelatedParticipant st i
            else Except.error SyncError.unresolvableCustomer
        | none => Except.error SyncError.unresolvableCustomer

/-- `getBillingType(subscription)`: classification stub, returns the
fixed type `payAmount`. -/
def getBillingType (_ : StripeSubscription) : SubscriptionType :=
  SubscriptionType.payAmount

/-- `formatStripeSubscription(subscriptionId)`: fetch the raw
subscription (absent ⇒ return `null`, no error), compute `isActive`
from the status, resolve the participant (may throw, propagated),
classify, and build the internal record with period bounds converted
from epoch seconds to epoch-ms instants. -/
def formatStripeSubscription (st : SyncState) (subscriptionId : String) :
    Except SyncError (Option Subscription) :=
  match getStripeSubscription st subscriptionId with
  | none => Except.ok none
  | some subscription =>
      let isActive := subscription.status == "active"
      match getParticipant st subscription.customer with
      | Except.error e => Except.error e
      | Except.ok participant =>
          Except.ok (some
            { stripeId := subscription.id
              isActive := isActive
              participant := participant
              subscriptionType := getBillingType subscription
              resource := ""
              resources := []
              details :=
                { startDate := subscription.current_period_start * 1000
                  endDate := some (subscription.current_period_end * 1000) } })

/-- Modelled from the spec: `BillingRepository.addSubscriptions([Subscription]) -> void`
(spec section 6); the `BillingSubscriptionSyncService` implementation is not under
`src/`.  Appends the batch to the store, assigning fresh internal ids, and
records the repository call in the trace. -/
def addSubscriptions (st : SyncState) (subs : List Subscription) : SyncState :=
  { st with
    repo := st.repo ++ subs.enum.map (fun p => ⟨st.nextId + p.1, p.2⟩)
    nextId := st.nextId + subs.length
    ops := st.ops ++ [RepoOp.add subs] }

/-- Modelled from the spec: `BillingRepository.removeSubscription(internalId) -> void | fails NotFound`
(spec section 6); the `BillingSubscriptionSyncService` implementation is not under
`src/`.  Removes the record with the given internal id, recording the call,
or fails with `NotFound` without mutating anything. -/
def removeSubscription (st : SyncState) (internalId : Nat) :
    SyncState × Except SyncError Unit :=
  if st.repo.any (fun r => r.internalId == internalId) then
    ({ st with
        repo := st.repo.filter (fun r => !(r.internalId == internalId))
        ops := st.ops ++ [RepoOp.remove internalId] },
     Except.ok ())
  else (st, Except.error (SyncError.removeNotFound internalId))

/-- The `try` block of `registerSubscription(subscription)`: format the
subscription by id; a `null` result throws; otherwise the one-element
batch is committed via `addSubscriptions`.  Every throw happens before
the single repository write. -/
def registerSubscriptionBody (st : SyncState) (subscriptionId : String) :
    Except SyncError SyncState :=
  match formatStripeSubscription st subscriptionId with
  | Except.error e => Except.error e
  | Except.ok none => Except.error SyncError.subscriptionNotFound
  | Except.ok (some formattedSub) => Except.ok (addSubscriptions st [formattedSub])

/-- Error-log line of `registerSubscription`'s `catch` clause. -/
def registerErrMsg (subscriptionId : String) (e : SyncError) : String :=
  "Error registering subscription " ++ subscriptionId ++ ": " ++ errMessage e

/-- `registerSubscription(subscription)`: runs the body; any error is
caught and logged (state as before the failed body, which wrote
nothing). -/
def registerSubscription (st : SyncState) (subscriptionId : String) :
    SyncState × List LogEntry :=
  match registerSubscriptionBody st subscriptionId with
  | Except.ok st1 => (st1, [])
  | Except.error e => (st, [LogEntry.error (registerErrMsg subscriptionId e)])

/-- The `try` block of `unregisterSubscription(subscription)`: look up the
internal record by `stripeId` (absent ⇒ throw), convert its `_id` to a
string, and when that string is truthy remove exactly that record. -/
def unregisterSubscriptionBody (st : SyncState) (stripeId : String) :
    Except SyncError SyncState :=
  match st.repo.find? (fun r => r.sub.stripeId == stripeId) with
  | none => Except.error (SyncError.subscriptionRecordNotFound stripeId)
  | some billingSubscription =>
      let subscriptionId := toString billingSubscription.internalId
      if subscriptionId ≠ "" then
        match removeSubscription st billingSubscription.internalId with
        | (st1, Except.ok _) => Except.ok st1
        | (_, Except.error e) => Except.error e
      else Except.error SyncError.invalidSubscriptionId

/-- Error-log line of `unregisterSubscription`'s `catch` clause. -/
def unregisterErrMsg (stripeId : String) (e : SyncError) : String :=
  "Error unregistering subscription " ++ stripeId ++ ": " ++ errMessage e

/-- `unregisterSubscription(subscription)`: runs the body; any error is
caught and logged (state as before the failed body, which wrote
nothing). -/
def unregisterSubscription (st : SyncState) (stripeId : String) :
    SyncState × List LogEntry :=
  match unregisterSubscriptionBody st stripeId with
  | Except.ok st1 => (st1, [])
  | Except.error e => (st, [LogEntry.error (unregisterErrMsg stripeId e)])

/-- Inbound provider event as the handler reads it: the raw `type`
string and the id of the subscription object carried in `event.data`. -/
structure StripeEvent where
  type : String
  objectId : String
  deriving Repr, DecidableEq

/-- Error-log line of `handleWebhook`'s `catch` clause. -/
def webhookErrMsg (e : SyncError) : String :=
  "Error handling Stripe webhook: " ++ errMessage e

/-- `handleWebhook(event)`: throws when the Stripe client is
uninitialized (caught by its own `catch`, which logs and returns
normally); otherwise dispatches on the event type — `updated` is a
placeholder no-op, `deleted` and `created` go to the handlers (which
catch all of their own errors), and any other type is logged as
unhandled.  No branch lets an error escape to the caller. -/
def handleWebhook (st : SyncState) (event : StripeEvent) : SyncState × List LogEntry :=
  if st.stripeInitialized then
    match event.type with
    | "customer.subscription.updated" => (st, [])
    | "customer.subscription.deleted" => unregisterSubscription st event.objectId
    | "customer.subscription.created" => registerSubscription st event.objectId
    | other => (st, [LogEntry.log ("Unhandled event type " ++ other)])
  else (st, [LogEntry.error (webhookErrMsg SyncError.uninitialized)])

/-- Proleptic-Gregorian civil date of a day count since 1970-01-01
(the `civil_from_days` algorithm, restricted to non-negative epochs),
as used by `Date.prototype.toISOString`. -/
def civilFromDays (days : Nat) : Nat × Nat × Nat :=
  let z := days + 719468
  let era := z / 146097
  let doe := z % 146097
  let yoe := (doe - doe / 1460 + doe / 36524 - doe / 146096) / 365
  let y := yoe + era * 400
  let doy := doe - (365 * yoe + yoe / 4 - yoe / 100)
  let mp := (5 * doy + 2) / 153
  let d := doy - (153 * mp + 2) / 5 + 1
  let m := if mp < 10 then mp + 3 else mp - 9
  ((if m ≤ 2 then y + 1 else y), m, d)

/-- UTC calendar rendering `(year, month, day, hour, minute, second)` of
an epoch-milliseconds instant, as `Date.prototype.toISOString` shows it. -/
def utcOfEpochMs (ms : Nat) : Nat × Nat × Nat × Nat × Nat × Nat :=
  let t := ms / 1000
  let secs := t % 86400
  let (y, m, d) := civilFromDays (t / 86400)
  (y, m, d, secs / 3600, secs % 3600 / 60, secs % 60)

/-- Modelled from the spec: the storage boundary enforces external-id
uniqueness with atomic compare-and-insert semantics (spec section 5); the
mapping-store schema files are not under `src/`.  A single atomic step
that inserts the mapping unless one for that external id exists. -/
def casInsertCustomerMapping (tbl : List CustMapping) (participant stripeCustomerId : String) :
    List CustMapping × Except SyncError Unit :=
  if tbl.any (fun m => m.stripeCustomerId == stripeCustomerId) then
    (tbl, Except.error (SyncError.alreadyLinked .customer stripeCustomerId))
  else (tbl ++ [⟨participant, stripeCustomerId⟩], Except.ok ())

/-- Decidable equality for `Except` results, needed to compare observed
outcomes of link calls. -/
instance {ε α : Type} [DecidableEq ε] [DecidableEq α] : DecidableEq (Except ε α) := fun a b =>
  match a, b with
  | Except.ok x, Except.ok y =>
      if h : x = y then isTrue (by rw [h]) else isFalse (by intro hc; cases hc; exact h rfl)
  | Except.error x, Except.error y =>
      if h : x = y then isTrue (by rw [h]) else isFalse (by intro hc; cases hc; exact h rfl)
  | Except.ok _, Except.error _ => isFalse (by intro hc; cases hc)
  | Except.error _, Except.ok _ => isFalse (by intro hc; cases hc)

/-- Program counter of one in-flight `linkParticipantToCustomer` call,
split at its two storage accesses (the awaited `findOne` and the awaited
`save`). -/
inductive LinkPC where
  | start
  | checked (found : Bool)
  | done (res : Except SyncError Unit)
  deriving Repr, DecidableEq

/-- One in-flight `linkParticipantToCustomer` call. -/
structure LinkThread where
  participant : String
  externalId : String
  pc : LinkPC
  deriving Repr, DecidableEq

/-- One atomic step of a link call against the shared mapping table:
first step performs the `findOne`; second step either throws
`AlreadyLinked` (when the read found a mapping) or performs the
compare-and-insert save.  A finished call does not move. -/
def stepLink (tbl : List CustMapping) (th : LinkThread) : List CustMapping × LinkThread :=
  match th.pc with
  | .start =>
      (tbl, { th with pc := .checked (tbl.any (fun m => m.stripeCustomerId == th.externalId)) })
  | .checked true =>
      (tbl, { th with pc := .done (Except.error (SyncError.alreadyLinked .customer th.externalId)) })
  | .checked false =>
      let r := casInsertCustomerMapping tbl th.participant th.externalId
      (r.1, { th with pc := .done r.2 })
  | .done _ => (tbl, th)

/-- Run two concurrent link calls under a schedule: `true` steps the
first thread, `false` the second. -/
def runSched : List Bool → List CustMapping → LinkThread → LinkThread →
    List CustMapping × LinkThread × LinkThread
  | [], tbl, a, b => (tbl, a, b)
  | true :: rest, tbl, a, b =>
      let r := stepLink tbl a
      runSched rest r.1 r.2 b
  | false :: rest, tbl, a, b =>
      let r := stepLink tbl b
      runSched rest r.1 a r.2

/-- Two concurrent `linkParticipantToCustomer` calls for the same
external id, started from the same table, run under a schedule. -/
def twoLinkRun (sched : List Bool) (tbl0 : List CustMapping) (p1 p2 e : String) :
    List CustMapping × LinkThread × LinkThread :=
  runSched sched tbl0 ⟨p1, e, LinkPC.start⟩ ⟨p2, e, LinkPC.start⟩

/-- A state with an initialized Stripe client and everything else empty. -/
def emptyState : SyncState :=
  { stripeInitialized := true, gateway := [], createdCustomerId := none,
    customerMap := [], connectedMap := [], repo := [], nextId := 0, ops := [] }

/-- The raw subscription of the spec scenario in section 8. -/
def rawSub1 : StripeSubscription :=
  { id := "sub_1", status := "active", customer := CustomerRef.str "cus_1",
    current_period_start := 1700000000, current_period_end := 1702592000 }

/-- The spec scenario state: `sub_1` retrievable, `cus_1` mapped to
participant `alice`. -/
def stScenario : SyncState :=
  { stripeInitialized := true, gateway := [("sub_1", rawSub1)],
    createdCustomerId := none, customerMap := [⟨"alice", "cus_1"⟩],
    connectedMap := [], repo := [], nextId := 0, ops := [] }

/-- The internal record the translator produces for `rawSub1` under
`stScenario`. -/
def formattedSub1 : Subscription :=
  { stripeId := "sub_1", isActive := true, participant := "alice",
    subscriptionType := SubscriptionType.payAmount, resource := "", resources := [],
    details := { startDate := 1700000000000, endDate := some 1702592000000 } }

/-- A state whose repository holds one record for `sub_1`. -/
def stWithRecord : SyncState :=
  { emptyState with repo := [⟨7, formattedSub1⟩] }

/-- A state where the provider would create customer `cus_9`. -/
def stConnect : SyncState :=
  { emptyState with createdCustomerId := some "cus_9" }

/-- Helper: `Nat.toDigitsCore` never empties a non-empty accumulator. -/
theorem toDigitsCore_ne_nil (b : Nat) :
    ∀ (fuel n : Nat) (ds : List Char), ds ≠ [] → Nat.toDigitsCore b fuel n ds ≠ [] := by
  intro fuel
  induction fuel with
  | zero => intro n ds h; simpa [Nat.toDigitsCore] using h
  | succ f ih =>
    intro n ds h
    simp only [Nat.toDigitsCore]
    split
    · simp
    · exact ih _ _ (by simp)

/-- Helper: the decimal rendering of a natural number is never the empty
string (so the `_id.toString()` truthiness check always passes). -/
theorem toString_nat_ne_empty (n : Nat) : toString n ≠ "" := by
  intro h
  have hne : Nat.toDigits 10 n ≠ [] := by
    unfold Nat.toDigits
    simp only [Nat.toDigitsCore]
    split
    · simp
    · exact toDigitsCore_ne_nil 10 _ _ _ (by simp)
  have hd : Nat.toDigits 10 n = [] := by
    have h2 := congrArg String.data h
    simpa [toString, Nat.repr, List.asString] using h2
  exact hne hd

/-- Claim C1: for either mapping kind, after a successful `link(p1, e)`
any subsequent `link(p2, e)` for the same external id fails with an
`AlreadyLinked` error regardless of the participant, and the failed call
leaves the state (hence the mapping table) unchanged. -/
theorem link_externalId_unique (st : SyncState) (p1 p2 e : String) :
    ((linkParticipantToCustomer st p1 e).2 = Except.ok () →
      linkParticipantToCustomer (linkParticipantToCustomer st p1 e).1 p2 e =
        ((linkParticipantToCustomer st p1 e).1,
         Except.error (SyncError.alreadyLinked MappingKind.customer e))) ∧
    (∀ m, (linkParticipantToConnectedAccount st p1 e).2 = Except.ok m →
      linkParticipantToConnectedAccount (linkParticipantToConnectedAccount st p1 e).1 p2 e =
        ((linkParticipantToConnectedAccount st p1 e).1,
         Except.error (SyncError.alreadyLinked MappingKind.connectedAccount e))) := by
  constructor
  · intro h
    cases h0 : st.customerMap.find? (fun m => m.stripeCustomerId == e) with
    | some m => simp [linkParticipantToCustomer, h0] at h
    | none =>
      simp only [linkParticipantToCustomer, h0]
      simp [List.find?_append, h0, List.find?]
  · intro m h
    cases h0 : st.connectedMap.find? (fun m => m.stripeAccount == e) with
    | some m2 => simp [linkParticipantToConnectedAccount, h0] at h
    | none =>
      simp only [linkParticipantToConnectedAccount, h0]
      simp [List.find?_append, h0, List.find?]

/-- Witness for C1: both link kinds refuse a second link of `cus_1` /
`acct_1` from the empty state. -/
theorem link_externalId_unique_witness :
    linkParticipantToCustomer (linkParticipantToCustomer emptyState "alice" "cus_1").1
        "bob" "cus_1" =
      ((linkParticipantToCustomer emptyState "alice" "cus_1").1,
       Except.error (SyncError.alreadyLinked MappingKind.customer "cus_1")) ∧
    linkParticipantToConnectedAccount
        (linkParticipantToConnectedAccount emptyState "alice" "acct_1").1 "bob" "acct_1" =
      ((linkParticipantToConnectedAccount emptyState "alice" "acct_1").1,
       Except.error (SyncError.alreadyLinked MappingKind.connectedAccount "acct_1")) :=
  ⟨(link_externalId_unique emptyState "alice" "bob" "cus_1").1 rfl,
   (link_externalId_unique emptyState "alice" "bob" "acct_1").2 ⟨"alice", "acct_1"⟩ rfl⟩

/-- Counterexample for C2: for the plain identity string `""` the code
fails with `UnresolvableCustomer` instead of resolving it through the
customer mapping (resolution would give the distinct `NotFound` error
`mappingNotFound`). -/
theorem getParticipant_empty_string_cex :
    getParticipant emptyState (CustomerRef.str "") =
      Except.error SyncError.unresolvableCustomer ∧
    getParticipant emptyState (CustomerRef.str "") ≠
      getRelatedParticipant emptyState "" := by
  constructor
  · rfl
  · intro h
    rw [show getParticipant emptyState (CustomerRef.str "") =
          Except.error SyncError.unresolvableCustomer from rfl,
        show getRelatedParticipant emptyState "" =
          Except.error (SyncError.mappingNotFound "") from rfl] at h
    cases h

/-- Claim C2 (amended): a non-empty plain identity string resolves
through the customer mapping; an expanded object with `deleted = true`
fails with `CustomerDeleted`; an expanded object carrying a non-empty id
resolves that id; any other shape — no id, or an empty id string,
plain or expanded — fails with `UnresolvableCustomer`; a resolved id
with no mapping fails with `NotFound`; and registration never creates a
mapping implicitly. -/
theorem getParticipant_resolution (st : SyncState) :
    (∀ s : String, s ≠ "" →
      getParticipant st (CustomerRef.str s) = getRelatedParticipant st s) ∧
    (∀ i, getParticipant st (CustomerRef.obj (some true) i) =
      Except.error SyncError.customerDeleted) ∧
    (∀ d i, d ≠ some true → i ≠ "" →
      getParticipant st (CustomerRef.obj d (some i)) = getRelatedParticipant st i) ∧
    (∀ d, d ≠ some true →
      getParticipant st (CustomerRef.obj d none) =
        Except.error SyncError.unresolvableCustomer) ∧
    (getParticipant st (CustomerRef.str "") =
      Except.error SyncError.unresolvableCustomer) ∧
    (∀ d, d ≠ some true →
      getParticipant st (CustomerRef.obj d (some "")) =
        Except.error SyncError.unresolvableCustomer) ∧
    (∀ cid, st.customerMap.find? (fun m => m.stripeCustomerId == cid) = none →
      getRelatedParticipant st cid = Except.error (SyncError.mappingNotFound cid)) ∧
    (∀ subId st1, registerSubscriptionBody st subId = Except.ok st1 →
      st1.customerMap = st.customerMap ∧ st1.connectedMap = st.connectedMap) := by
  refine ⟨?_, ?_, ?_, ?_, ?_, ?_, ?_, ?_⟩
  · intro s hs; simp [getParticipant, hs]
  · intro i; simp [getParticipant]
  · intro d i hd hi; simp [getParticipant, hd, hi]
  · intro d hd; simp [getParticipant, hd]
  · simp [getParticipant]
  · intro d hd; simp [getParticipant, hd]
  · intro cid h; simp [getRelatedParticipant, h]
  · intro subId st1 h
    unfold registerSubscriptionBody at h
    cases hf : formatStripeSubscription st subId with
    | error e => rw [hf] at h; cases h
    | ok o =>
      cases o with
      | none => rw [hf] at h; cases h
      | some s =>
        rw [hf] at h
        cases h
        simp [addSubscriptions]

/-- Witness for C2: the non-empty plain id `cus_1` resolves through the
mapping in the scenario state. -/
theorem getParticipant_resolution_witness :
    getParticipant stScenario (CustomerRef.str "cus_1") =
      getRelatedParticipant stScenario "cus_1" :=
  (getParticipant_resolution stScenario).1 "cus_1" (by decide)

/-- Claim C3: for every retrievable raw subscription with a resolvable
customer, the translated record has `isActive = true` exactly when the
raw status is `active`, carries the converted period bounds, and the
output is the same for any state that retrieves and resolves the same
inputs (determinism). -/
theorem translate_isActive (st : SyncState) (subId : String) (raw : StripeSubscription)
    (participant : String)
    (h1 : getStripeSubscription st subId = some raw)
    (h2 : getParticipant st raw.customer = Except.ok participant) :
    ∃ s, formatStripeSubscription st subId = Except.ok (some s) ∧
      (s.isActive = true ↔ raw.status = "active") ∧
      s.isActive = (raw.status == "active") ∧
      s.details.startDate = raw.current_period_start * 1000 ∧
      s.details.endDate = some (raw.current_period_end * 1000) ∧
      s.participant = participant ∧ s.stripeId = raw.id ∧
      (∀ st2 : SyncState, getStripeSubscription st2 subId = some raw →
        getParticipant st2 raw.customer = Except.ok participant →
        formatStripeSubscription st2 subId = formatStripeSubscription st subId) := by
  refine ⟨{ stripeId := raw.id, isActive := raw.status == "active",
            participant := participant, subscriptionType := getBillingType raw,
            resource := "", resources := [],
            details := { startDate := raw.current_period_start * 1000,
                         endDate := some (raw.current_period_end * 1000) } },
          ?_, by simp, rfl, rfl, rfl, rfl, rfl, ?_⟩
  · simp [formatStripeSubscription, h1, h2]
  · intro st2 g1 g2
    simp [formatStripeSubscription, h1, h2, g1, g2]

/-- Witness for C3: the scenario subscription `sub_1` with status
`active` translates to an active record with the converted bounds. -/
theorem translate_isActive_witness :
    ∃ s, formatStripeSubscription stScenario "sub_1" = Except.ok (some s) ∧
      (s.isActive = true ↔ rawSub1.status = "active") ∧
      s.isActive = (rawSub1.status == "active") ∧
      s.details.startDate = rawSub1.current_period_start * 1000 ∧
      s.details.endDate = some (rawSub1.current_period_end * 1000) ∧
      s.participant = "alice" ∧ s.stripeId = rawSub1.id ∧
      (∀ st2 : SyncState, getStripeSubscription st2 "sub_1" = some rawSub1 →
        getParticipant st2 rawSub1.customer = Except.ok "alice" →
        formatStripeSubscription st2 "sub_1" = formatStripeSubscription stScenario "sub_1") :=
  translate_isActive stScenario "sub_1" rawSub1 "alice" rfl rfl

/-- Claim C4: the webhook handler never propagates an error: an
uninitialized client, a failing `created` handler and a failing
`deleted` handler each return normally with an error log and an
unchanged state, and an unrecognized event kind is a plain logged
no-op, not an error. -/
theorem handleWebhook_swallows (st : SyncState) (ev : StripeEvent) :
    (st.stripeInitialized = false →
      handleWebhook st ev = (st, [LogEntry.error (webhookErrMsg SyncError.uninitialized)])) ∧
    (st.stripeInitialized = true →
      ev.type ≠ "customer.subscription.updated" →
      ev.type ≠ "customer.subscription.deleted" →
      ev.type ≠ "customer.subscription.created" →
      handleWebhook st ev = (st, [LogEntry.log ("Unhandled event type " ++ ev.type)])) ∧
    (∀ e, st.stripeInitialized = true → ev.type = "customer.subscription.created" →
      registerSubscriptionBody st ev.objectId = Except.error e →
      handleWebhook st ev = (st, [LogEntry.error (registerErrMsg ev.objectId e)])) ∧
    (∀ e, st.stripeInitialized = true → ev.type = "customer.subscription.deleted" →
      unregisterSubscriptionBody st ev.objectId = Except.error e →
      handleWebhook st ev = (st, [LogEntry.error (unregisterErrMsg ev.objectId e)])) := by
  refine ⟨?_, ?_, ?_, ?_⟩
  · intro h; simp [handleWebhook, h]
  · intro h h1 h2 h3
    simp [handleWebhook, h, h1, h2, h3]
  · intro e h ht hb
    unfold handleWebhook
    simp only [h, if_true, ht]
    simp [registerSubscription, hb]
  · intro e h ht hb
    unfold handleWebhook
    simp only [h, if_true, ht]
    simp [unregisterSubscription, hb]

/-- Witness for C4: an unrecognized event kind is a logged no-op. -/
theorem handleWebhook_swallows_witness :
    handleWebhook emptyState { type := "some.other.event", objectId := "x" } =
      (emptyState, [LogEntry.log ("Unhandled event type " ++ "some.other.event")]) :=
  (handleWebhook_swallows emptyState { type := "some.other.event", objectId := "x" }).2.1
    rfl (by decide) (by decide) (by decide)

/-- Claim C5: processing a `created` event is atomic: a successful
translation commits exactly one `addSubscriptions` batch containing the
formatted record, and any failure of the body returns the state exactly
as it was (no repository write), with an error log. -/
theorem registerSubscription_atomic (st : SyncState) (subId : String) :
    (∀ s, formatStripeSubscription st subId = Except.ok (some s) →
      registerSubscription st subId = (addSubscriptions st [s], []) ∧
      (addSubscriptions st [s]).ops = st.ops ++ [RepoOp.add [s]] ∧
      (addSubscriptions st [s]).repo = st.repo ++ [⟨st.nextId, s⟩]) ∧
    (∀ e, registerSubscriptionBody st subId = Except.error e →
      registerSubscription st subId = (st, [LogEntry.error (registerErrMsg subId e)])) := by
  constructor
  · intro s h
    refine ⟨?_, by simp [addSubscriptions], by simp [addSubscriptions, List.enum]⟩
    simp [registerSubscription, registerSubscriptionBody, h]
  · intro e h
    simp [registerSubscription, h]

/-- Witness for C5: the scenario `created` event commits exactly one
batch holding the formatted `sub_1` record. -/
theorem registerSubscription_atomic_witness :
    registerSubscription stScenario "sub_1" = (addSubscriptions stScenario [formattedSub1], []) ∧
    (addSubscriptions stScenario [formattedSub1]).ops =
      stScenario.ops ++ [RepoOp.add [formattedSub1]] ∧
    (addSubscriptions stScenario [formattedSub1]).repo =
      stScenario.repo ++ [⟨stScenario.nextId, formattedSub1⟩] :=
  (registerSubscription_atomic stScenario "sub_1").1 formattedSub1 rfl

/-- Claim C6: a `deleted` event for an external id with no matching
internal record fails with `NotFound` and performs no mutation; with a
matching record, exactly that record's internal id is passed to
`removeSubscription` and the record is removed. -/
theorem unregisterSubscription_guard (st : SyncState) (stripeId : String) :
    (st.repo.find? (fun r => r.sub.stripeId == stripeId) = none →
      unregisterSubscriptionBody st stripeId =
        Except.error (SyncError.subscriptionRecordNotFound stripeId) ∧
      unregisterSubscription st stripeId =
        (st, [LogEntry.error
          (unregisterErrMsg stripeId (SyncError.subscriptionRecordNotFound stripeId))])) ∧
    (∀ r, st.repo.find? (fun r => r.sub.stripeId == stripeId) = some r →
      unregisterSubscriptionBody st stripeId = Except.ok
        { st with repo := st.repo.filter (fun x => !(x.internalId == r.internalId)),
                  ops := st.ops ++ [RepoOp.remove r.internalId] } ∧
      unregisterSubscription st stripeId =
        ({ st with repo := st.repo.filter (fun x => !(x.internalId == r.internalId)),
                   ops := st.ops ++ [RepoOp.remove r.internalId] }, [])) := by
  constructor
  · intro h
    constructor
    · simp [unregisterSubscriptionBody, h]
    · simp [unregisterSubscription, unregisterSubscriptionBody, h]
  · intro r h
    have hmem := List.mem_of_find?_eq_some h
    have hany : st.repo.any (fun x => x.internalId == r.internalId) = true :=
      List.any_eq_true.mpr ⟨r, hmem, by simp⟩
    have hbody : unregisterSubscriptionBody st stripeId = Except.ok
        { st with repo := st.repo.filter (fun x => !(x.internalId == r.internalId)),
                  ops := st.ops ++ [RepoOp.remove r.internalId] } := by
      simp [unregisterSubscriptionBody, h, toString_nat_ne_empty, removeSubscription, hany]
    exact ⟨hbody, by simp [unregisterSubscription, hbody]⟩

/-- Witness for C6: deleting `sub_1` from a repository holding it as
record 7 removes exactly record 7. -/
theorem unregisterSubscription_guard_witness :
    unregisterSubscriptionBody stWithRecord "sub_1" = Except.ok
      { stWithRecord with
          repo := stWithRecord.repo.filter (fun x => !(x.internalId == 7)),
          ops := stWithRecord.ops ++ [RepoOp.remove 7] } ∧
    unregisterSubscription stWithRecord "sub_1" =
      ({ stWithRecord with
          repo := stWithRecord.repo.filter (fun x => !(x.internalId == 7)),
          ops := stWithRecord.ops ++ [RepoOp.remove 7] }, []) :=
  (unregisterSubscription_guard stWithRecord "sub_1").2 ⟨7, formattedSub1⟩ rfl

/-- Counterexample for C7: with an initialized client and a gateway that
cannot retrieve `sub_x`, `formatStripeSubscription` returns `null`
(`Except.ok none`) and does not fail with any error. -/
theorem formatStripe_null_on_missing_cex :
    formatStripeSubscription emptyState "sub_x" = Except.ok none ∧
    ∀ e : SyncError, formatStripeSubscription emptyState "sub_x" ≠ Except.error e := by
  refine ⟨rfl, ?_⟩
  intro e h
  rw [show formatStripeSubscription emptyState "sub_x" = Except.ok none from rfl] at h
  cases h

/-- Claim C7 (amended): when the gateway cannot retrieve the raw
subscription, `formatStripeSubscription` returns `null` rather than
propagating an error; its caller `registerSubscription` turns the
`null` into the `SubscriptionNotFound` error, which it catches and logs
while aborting the event. -/
theorem formatStripe_missing_returns_null (st : SyncState) (subId : String)
    (h : getStripeSubscription st subId = none) :
    formatStripeSubscription st subId = Except.ok none ∧
    registerSubscriptionBody st subId = Except.error SyncError.subscriptionNotFound ∧
    registerSubscription st subId =
      (st, [LogEntry.error (registerErrMsg subId SyncError.subscriptionNotFound)]) := by
  have h1 : formatStripeSubscription st subId = Except.ok none := by
    simp [formatStripeSubscription, h]
  have h2 : registerSubscriptionBody st subId = Except.error SyncError.subscriptionNotFound := by
    simp [registerSubscriptionBody, h1]
  exact ⟨h1, h2, by simp [registerSubscription, h2]⟩

/-- Witness for C7's amended statement at a concrete unretrievable id. -/
theorem formatStripe_missing_returns_null_witness :
    formatStripeSubscription emptyState "sub_y" = Except.ok none ∧
    registerSubscriptionBody emptyState "sub_y" = Except.error SyncError.subscriptionNotFound ∧
    registerSubscription emptyState "sub_y" =
      (emptyState, [LogEntry.error (registerErrMsg "sub_y" SyncError.subscriptionNotFound)]) :=
  formatStripe_missing_returns_null emptyState "sub_y" rfl

/-- Counterexample for C8: the translated `endDate` for
`current_period_end = 1702592000` is the instant 1702592000000 ms,
whose UTC rendering is 2023-12-14T22:13:20Z — not the claimed
2023-12-15T02:33:20Z. -/
theorem translate_endDate_instant_cex :
    (formatStripeSubscription stScenario "sub_1" = Except.ok (some formattedSub1) ∧
      formattedSub1.details.endDate = some 1702592000000) ∧
    utcOfEpochMs 1702592000000 = (2023, 12, 14, 22, 13, 20) ∧
    ((2023, 12, 14, 22, 13, 20) : Nat × Nat × Nat × Nat × Nat × Nat) ≠
      (2023, 12, 15, 2, 33, 20) := by
  refine ⟨⟨rfl, rfl⟩, by decide, by decide⟩

/-- Claim C8 (amended): the translated period bounds are the raw epoch
seconds times 1000; in particular `current_period_start = 1700000000`
is 2023-11-14T22:13:20Z and `current_period_end = 1702592000` is
2023-12-14T22:13:20Z. -/
theorem translate_period_bounds :
    (∀ (st : SyncState) (subId : String) (raw : StripeSubscription) (s : Subscription),
      getStripeSubscription st subId = some raw →
      formatStripeSubscription st subId = Except.ok (some s) →
      s.details.startDate = raw.current_period_start * 1000 ∧
      s.details.endDate = some (raw.current_period_end * 1000)) ∧
    utcOfEpochMs (1700000000 * 1000) = (2023, 11, 14, 22, 13, 20) ∧
    utcOfEpochMs (1702592000 * 1000) = (2023, 12, 14, 22, 13, 20) := by
  refine ⟨?_, by decide, by decide⟩
  intro st subId raw s h1 h2
  unfold formatStripeSubscription at h2
  rw [h1] at h2
  cases h3 : getParticipant st raw.customer with
  | error e => simp [h3] at h2
  | ok participant =>
    simp only [h3] at h2
    cases h2
    constructor <;> rfl

/-- Witness for C8's amended statement on the scenario record. -/
theorem translate_period_bounds_witness :
    formattedSub1.details.startDate = rawSub1.current_period_start * 1000 ∧
    formattedSub1.details.endDate = some (rawSub1.current_period_end * 1000) :=
  translate_period_bounds.1 stScenario "sub_1" rawSub1 formattedSub1 rfl rfl

/-- Claim C9: two concurrent link calls for the same free external id,
under any interleaving of their two storage steps, end with exactly one
winner; the loser observes `AlreadyLinked` (from the pre-check or from
the storage-level compare-and-insert) and the table gains exactly the
winner's mapping. -/
theorem concurrent_link_single_winner (sched : List Bool) (tbl0 : List CustMapping)
    (p1 p2 e : String)
    (hlen : sched.length = 4) (hcount : sched.count true = 2)
    (hfree : tbl0.any (fun m => m.stripeCustomerId == e) = false) :
    ((twoLinkRun sched tbl0 p1 p2 e).2.1.pc = LinkPC.done (Except.ok ()) ∧
     (twoLinkRun sched tbl0 p1 p2 e).2.2.pc =
       LinkPC.done (Except.error (SyncError.alreadyLinked MappingKind.customer e)) ∧
     (twoLinkRun sched tbl0 p1 p2 e).1 = tbl0 ++ [⟨p1, e⟩]) ∨
    ((twoLinkRun sched tbl0 p1 p2 e).2.2.pc = LinkPC.done (Except.ok ()) ∧
     (twoLinkRun sched tbl0 p1 p2 e).2.1.pc =
       LinkPC.done (Except.error (SyncError.alreadyLinked MappingKind.customer e)) ∧
     (twoLinkRun sched tbl0 p1 p2 e).1 = tbl0 ++ [⟨p2, e⟩]) := by
  match sched with
  | [a, b, c, d] =>
    cases a <;> cases b <;> cases c <;> cases d <;>
      first
      | (exfalso; simp at hcount; done)
      | (simp [twoLinkRun, runSched, stepLink, casInsertCustomerMapping, hfree,
               List.any_append])

/-- Witness for C9: the fully interleaved schedule (both reads before
both writes) from the empty table. -/
theorem concurrent_link_single_winner_witness :
    ((twoLinkRun [true, false, true, false] [] "alice" "bob" "cus_1").2.1.pc =
       LinkPC.done (Except.ok ()) ∧
     (twoLinkRun [true, false, true, false] [] "alice" "bob" "cus_1").2.2.pc =
       LinkPC.done (Except.error (SyncError.alreadyLinked MappingKind.customer "cus_1")) ∧
     (twoLinkRun [true, false, true, false] [] "alice" "bob" "cus_1").1 =
       [] ++ [⟨"alice", "cus_1"⟩]) ∨
    ((twoLinkRun [true, false, true, false] [] "alice" "bob" "cus_1").2.2.pc =
       LinkPC.done (Except.ok ()) ∧
     (twoLinkRun [true, false, true, false] [] "alice" "bob" "cus_1").2.1.pc =
       LinkPC.done (Except.error (SyncError.alreadyLinked MappingKind.customer "cus_1")) ∧
     (twoLinkRun [true, false, true, false] [] "alice" "bob" "cus_1").1 =
       [] ++ [⟨"bob", "cus_1"⟩]) :=
  concurrent_link_single_winner [true, false, true, false] [] "alice" "bob" "cus_1"
    rfl rfl rfl

/-- Claim C10: `connect` never throws — it returns `null` exactly when
the client is uninitialized or the provider call fails, so the two
failure causes are indistinguishable from the return value; on success
it returns the created customer. -/
theorem connect_failure_null (st : SyncState) (email : String) :
    (connect st email = none ↔
      st.stripeInitialized = false ∨ st.createdCustomerId = none) ∧
    (∀ cid, st.stripeInitialized = true → st.createdCustomerId = some cid →
      connect st email = some { id := cid, email := email }) := by
  constructor
  · cases hs : st.stripeInitialized <;> cases hc : st.createdCustomerId <;>
      simp [connect, hs, hc]
  · intro cid h1 h2; simp [connect, h1, h2]

/-- Witness for C10: a successful creation returns the customer. -/
theorem connect_failure_null_witness :
    connect stConnect "user@mail.example" =
      some { id := "cus_9", email := "user@mail.example" } :=
  (connect_failure_null stConnect "user@mail.example").2 "cus_9" rfl rfl
